import Mathlib

/-!
Verification of the ANPR dashboard event pipeline.

The repository ships the dashboard front-end (`app/static/app.js`) together
with documentation of the Python back-end (tracker/voter, authorization
resolver, event store, Telegram alert dispatcher).  The back-end modules
themselves (`app/events.py`, `app/alerts.py`, `app/models.py`) are not part
of the available sources, so those components are modelled from the spec,
faithfully to its words; the dashboard logic is embedded directly from
`app/static/app.js`.
-/

namespace ANPR

/-! ## Temporal Tracker / Voter -/

/-- Modelled from the spec: a raw per-frame observation.  Only the fields
the voting algorithm reads are kept: the OCR plate string and its
confidence (0-100). -/
structure RawObservation where
  plate_text : String
  ocr_confidence : Nat
deriving DecidableEq

/-- Modelled from the spec: observations with empty/failed OCR are excluded
from the vote. -/
def validReadings (obs : List RawObservation) : List RawObservation :=
  obs.filter (fun o => !o.plate_text.isEmpty)

/-- Modelled from the spec: for a distinct plate string, the sum of the
confidences of all observations reading that string. -/
def voteScore (obs : List RawObservation) (p : String) : Nat :=
  ((obs.filter (fun o => o.plate_text == p)).map (fun o => o.ocr_confidence)).sum

/-- Modelled from the spec: the index of the most recent occurrence of a
plate string in the track history (0 when the string never occurs). -/
def lastIdx (obs : List RawObservation) (p : String) : Nat :=
  ((obs.enum.filter (fun x => x.2.plate_text == p)).map Prod.fst).foldr max 0

/-- Modelled from the spec: the distinct non-empty plate strings of the
track history, the candidates of the weighted vote. -/
def plateCandidates (obs : List RawObservation) : List String :=
  ((validReadings obs).map (fun o => o.plate_text)).dedup

/-- Modelled from the spec: the voting order.  A plate beats another when
its confidence sum is strictly higher, or the sums are equal and its most
recent occurrence is later. -/
def beats (obs : List RawObservation) (p q : String) : Bool :=
  decide (voteScore obs q < voteScore obs p ∨
    (voteScore obs p = voteScore obs q ∧ lastIdx obs q < lastIdx obs p))

/-- Modelled from the spec: select the best candidate of a list under
`beats`; `none` on the empty list. -/
def pickBest (obs : List RawObservation) : List String → Option String
  | [] => none
  | p :: ps =>
    match pickBest obs ps with
    | none => some p
    | some q => if beats obs p q then some p else some q

/-- Modelled from the spec: the winning plate of a finalized track, `none`
when the track has no valid reading. -/
def finalizePlate (obs : List RawObservation) : Option String :=
  pickBest obs (plateCandidates obs)

/-! ## Authorization Resolver -/

/-- Modelled from the spec: case/format normalization before the whitelist
lookup — whitespace stripped, uppercased. -/
def normalizePlate (s : String) : String :=
  String.mk ((s.toList.filter (fun c => !c.isWhitespace)).map Char.toUpper)

/-- Modelled from the spec: exact-match lookup of the normalized plate
against the whitelist; a match yields the entry role, no match yields
`Unauthorized`. -/
def resolve (wl : List (String × String)) (s : String) : Bool × String :=
  match List.lookup (normalizePlate s) wl with
  | some role => (true, role)
  | none => (false, "Unauthorized")

/-! ## VehicleEvent and finalization -/

/-- Modelled from the spec: the persisted event record, restricted to the
fields the claims are about. -/
structure VehicleEvent where
  vehicle_number : String
  is_authorized : Bool
  authorized_as : String
  alert_sent : Bool
deriving DecidableEq

/-- Modelled from the spec: finalization of a track.  A track with no valid
reading is discarded; otherwise the weighted-vote winner is resolved
against the whitelist and an event is created with `alert_sent = false`. -/
def finalizeTrack (obs : List RawObservation) (wl : List (String × String)) :
    Option VehicleEvent :=
  match finalizePlate obs with
  | none => none
  | some w =>
    let r := resolve wl w
    some { vehicle_number := w, is_authorized := r.1, authorized_as := r.2,
           alert_sent := false }

/-! ## Alert Dispatcher -/

/-- Modelled from the spec: the possible outcomes of the single Telegram
notification attempt. -/
inductive NotifyOutcome where
  | success
  | missingCredentials
  | networkError
  | httpFailure (code : Nat)
deriving DecidableEq

/-- Modelled from the spec: `send_telegram` returns `true` exactly on a
confirmed successful dispatch and `false` on every failure, never
raising. -/
def send_telegram (o : NotifyOutcome) : Bool :=
  match o with
  | .success => true
  | _ => false

/-- Modelled from the spec: `maybeAlert` is a no-op for authorized events;
otherwise it makes exactly one notification attempt.  Returns the boolean
result together with the number of attempts made. -/
def maybeAlert (e : VehicleEvent) (o : NotifyOutcome) : Bool × Nat :=
  if e.is_authorized then (false, 0) else (send_telegram o, 1)

/-- Modelled from the spec and the documented `emit_vehicle_event` flow:
the caller sets `alert_sent := true` exactly when the dispatch returned
`true`. -/
def emit_vehicle_event (e : VehicleEvent) (o : NotifyOutcome) : VehicleEvent :=
  if (maybeAlert e o).1 then { e with alert_sent := true } else e

/-! ## Event Store -/

/-- Modelled from the spec: a persisted event row as the store and the
dashboard see it. -/
structure PersistedEvent where
  id : Nat
  vehicle_number : String
  vehicle_type : String
  status : String
  time_stamp : Nat
  is_authorized : Bool
  authorized_as : String
  alert_sent : Bool
deriving DecidableEq

/-- Modelled from the spec: the filters of `query` — vehicle-number
substring, status, authorized flag, role, vehicle type, date range.  Absent
filters are `none`, mirroring the dashboard only sending set parameters. -/
structure QueryFilters where
  vehicle : Option String := none
  status : Option String := none
  authorized : Option Bool := none
  role : Option String := none
  vehicle_type : Option String := none
  date_from : Option Nat := none
  date_to : Option Nat := none
deriving DecidableEq

/-- Substring test on the character lists of two strings. -/
def substrOf (v w : String) : Bool := decide (v.toList <:+: w.toList)

/-- Modelled from the spec: conjunction of all set filters against one
event. -/
def matchesFilters (f : QueryFilters) (e : PersistedEvent) : Bool :=
  (match f.vehicle with | none => true | some v => substrOf v e.vehicle_number) &&
  (match f.status with | none => true | some s => e.status == s) &&
  (match f.authorized with | none => true | some b => e.is_authorized == b) &&
  (match f.role with | none => true | some r => e.authorized_as == r) &&
  (match f.vehicle_type with | none => true | some t => e.vehicle_type == t) &&
  (match f.date_from with | none => true | some d => d ≤ e.time_stamp) &&
  (match f.date_to with | none => true | some d => e.time_stamp ≤ d)

/-- Newest-first order on persisted events: `a` comes no later than `b`
when `a` has the larger (or equal) timestamp. -/
def newestFirst (a b : PersistedEvent) : Prop := b.time_stamp ≤ a.time_stamp

instance : DecidableRel newestFirst := fun _ _ => Nat.decLe _ _

instance : IsTotal PersistedEvent newestFirst :=
  ⟨fun a b => Nat.le_total b.time_stamp a.time_stamp⟩

instance : IsTrans PersistedEvent newestFirst :=
  ⟨fun _ _ _ h1 h2 => Nat.le_trans h2 h1⟩

/-- Modelled from the spec: `query` returns the matching events ordered
newest-first. -/
def query (store : List PersistedEvent) (f : QueryFilters) : List PersistedEvent :=
  List.insertionSort newestFirst (store.filter (matchesFilters f))

/-- Modelled from the spec: the error class of a failed deletion. -/
inductive StoreError where
  | notFound
deriving DecidableEq

/-- Modelled from the spec: `delete(id)` removes the single event with the
given id; a nonexistent id yields a `NotFound` error and no change. -/
def deleteEvent (store : List PersistedEvent) (i : Nat) :
    Except StoreError (List PersistedEvent) :=
  if store.any (fun e => e.id == i) then
    .ok (store.filter (fun e => e.id != i))
  else
    .error .notFound

/-! ## Dashboard (`app/static/app.js`) -/

/-- From `loadAll`: row `i` of a table with `total` rows is rendered with
serial number `total - i` (`rowHtml(total - i, r, ...)`). -/
def rowSerial (total i : Nat) : Nat := total - i

/-- From `loadAll`: the serial numbers of a table of `n` rows, in render
order. -/
def serialNumbers (n : Nat) : List Nat :=
  (List.range n).map (fun i => rowSerial n i)

/-- From `loadAll`: the parameters of the Van Watch request — the current
filters with `authorized` forced to `true` and `role` removed
(`Object.assign({}, params, { authorized: 'true' }); delete vansParams.role`). -/
def vansRequestFilters (f : QueryFilters) : QueryFilters :=
  { f with authorized := some true, role := none }

/-- From `loadAll`: the rows of the Van Watch table — the Van-request query
results filtered by `r.authorized_as === 'Van'`. -/
def vanWatchRows (store : List PersistedEvent) (f : QueryFilters) :
    List PersistedEvent :=
  (query store (vansRequestFilters f)).filter (fun r => r.authorized_as == "Van")

/-- From `rowHtml`: the authorization column shows the literal `Van` in van
mode and `r.authorized_as` otherwise. -/
def rowAuthCell (vanMode : Bool) (r : PersistedEvent) : String :=
  if vanMode then "Van" else r.authorized_as

/-- From `rowHtml`: JavaScript `s.includes(c)` on the characters of `s`. -/
def jsIncludes (s : String) (c : Char) : Bool := s.toList.contains c

/-- From `rowHtml`: JavaScript `s.includes(c, i)` — search from index `i`. -/
def jsIncludesFrom (s : String) (c : Char) (i : Nat) : Bool :=
  (s.toList.drop i).contains c

/-- From `rowHtml`: the timestamp fix — when the string is non-empty and
contains no `Z`, no `+`, and no `-` at index 10 or later, append `Z` so a
timezone-naive timestamp is parsed as UTC; otherwise leave it unchanged. -/
def fixTimeStr (s : String) : String :=
  if !s.isEmpty && !jsIncludes s 'Z' && !jsIncludes s '+' &&
      !jsIncludesFrom s '-' 10 then
    s ++ "Z"
  else
    s

/-! ## `loadAll` coalescing (`loadInFlight` / `loadQueued`) -/

/-- State of the `loadAll` machinery: the two flags of `app.js`, plus the
number of fetch sequences currently in flight and the number started so
far (ghost counters for the statement of the invariant). -/
structure LoadState where
  loadInFlight : Bool
  loadQueued : Bool
  active : Nat
  started : Nat
deriving DecidableEq

/-- The observable steps of the `loadAll` machinery: an invocation of
`loadAll`, or the completion of the in-flight fetch sequence (the
`finally` block). -/
inductive LoadEvent where
  | call
  | finish
deriving DecidableEq

/-- From `loadAll`: an invocation with a load in flight only sets
`loadQueued` and returns; otherwise it sets `loadInFlight` and starts a
fetch sequence.  Completion clears `loadInFlight` and, when a rerun is
queued, clears `loadQueued` and re-invokes `loadAll`, which starts exactly
one new sequence. -/
def loadStep (s : LoadState) (ev : LoadEvent) : LoadState :=
  match ev with
  | .call =>
    if s.loadInFlight then
      { s with loadQueued := true }
    else
      { s with loadInFlight := true, active := s.active + 1,
               started := s.started + 1 }
  | .finish =>
    if s.loadInFlight then
      let t : LoadState := { s with loadInFlight := false, active := s.active - 1 }
      if t.loadQueued then
        { t with loadQueued := false, loadInFlight := true,
                 active := t.active + 1, started := t.started + 1 }
      else t
    else s

/-- Run of the `loadAll` machinery over a sequence of events. -/
def loadRun (s : LoadState) (evs : List LoadEvent) : LoadState :=
  evs.foldl loadStep s

/-- Initial state: no load in flight, nothing queued. -/
def loadInit : LoadState :=
  { loadInFlight := false, loadQueued := false, active := 0, started := 0 }

/-- The coalescing invariant: a fetch sequence is in flight exactly when
`loadInFlight` is set — in particular never more than one at a time. -/
def LoadInv (s : LoadState) : Prop :=
  s.active = if s.loadInFlight then 1 else 0

instance (s : LoadState) : Decidable (LoadInv s) := by
  unfold LoadInv; infer_instance

/-! ## Concrete instances used by the verification -/

/-- The five-observation track of the spec's worked tie-break example. -/
def c5Obs : List RawObservation :=
  [⟨"AB123", 40⟩, ⟨"AB123", 40⟩, ⟨"XY999", 85⟩, ⟨"AB123", 10⟩, ⟨"XY999", 5⟩]

/-- A one-observation track with a valid reading. -/
def demoObs : List RawObservation := [⟨"AA11", 50⟩]

/-- A track whose OCR readings all failed. -/
def emptyObs : List RawObservation := [⟨"", 30⟩, ⟨"", 0⟩]

/-- An unauthorized event before alert dispatch. -/
def demoEvent : VehicleEvent := ⟨"KA01AB1234", false, "Unauthorized", false⟩

/-- A two-event store. -/
def demoStore : List PersistedEvent :=
  [⟨1, "AB12", "Car", "IN", 100, true, "Staff", false⟩,
   ⟨2, "CD34", "Bus", "OUT", 200, false, "Unauthorized", true⟩]

/-- A load state with one fetch sequence in flight. -/
def demoLoadState : LoadState :=
  { loadInFlight := true, loadQueued := false, active := 1, started := 5 }

/-! ## Voter lemmas -/

theorem mem_validReadings {obs : List RawObservation} {o : RawObservation} :
    o ∈ validReadings obs ↔ o ∈ obs ∧ o.plate_text ≠ "" := by
  simp [validReadings, List.mem_filter, Bool.eq_false_iff, String.isEmpty_iff]

theorem beats_irrefl (obs : List RawObservation) (p : String) :
    beats obs p p = false := by
  simp only [beats, decide_eq_false_iff_not]
  omega

theorem beats_false_of (obs : List RawObservation) {p q w : String}
    (h1 : beats obs p w = true) (h2 : beats obs q w = false) :
    beats obs q p = false := by
  simp only [beats, decide_eq_true_eq, decide_eq_false_iff_not] at h1 h2 ⊢
  omega

theorem pickBest_nil (obs : List RawObservation) : pickBest obs [] = none := rfl

theorem pickBest_eq_some (obs : List RawObservation) :
    ∀ {l : List String}, l ≠ [] → ∃ w, pickBest obs l = some w
  | [], h => absurd rfl h
  | p :: ps, _ => by
    unfold pickBest
    cases hrec : pickBest obs ps with
    | none => exact ⟨p, rfl⟩
    | some q =>
      by_cases hb : beats obs p q = true
      · exact ⟨p, by simp [hb]⟩
      · exact ⟨q, by simp [hb]⟩

theorem pickBest_mem (obs : List RawObservation) :
    ∀ {l : List String} {w : String}, pickBest obs l = some w → w ∈ l := by
  intro l
  induction l with
  | nil => intro w h; simp [pickBest] at h
  | cons a ps ih =>
    intro w h
    unfold pickBest at h
    cases hrec : pickBest obs ps with
    | none =>
      rw [hrec] at h
      simp only [Option.some.injEq] at h
      subst h
      exact List.mem_cons_self _ _
    | some q =>
      rw [hrec] at h
      cases hb : beats obs a q
      · simp [hb] at h
        subst h
        exact List.mem_cons_of_mem _ (ih hrec)
      · simp [hb] at h
        subst h
        exact List.mem_cons_self _ _

theorem pickBest_optimal (obs : List RawObservation) :
    ∀ {l : List String} {w : String}, pickBest obs l = some w →
      ∀ p ∈ l, beats obs p w = false := by
  intro l
  induction l with
  | nil => intro w h; simp [pickBest] at h
  | cons a ps ih =>
    intro w h p hp
    unfold pickBest at h
    cases hrec : pickBest obs ps with
    | none =>
      rw [hrec] at h
      simp only [Option.some.injEq] at h
      subst h
      have hps : ps = [] := by
        cases ps with
        | nil => rfl
        | cons b bs =>
          exfalso
          obtain ⟨w2, hw2⟩ := pickBest_eq_some obs (List.cons_ne_nil b bs)
          rw [hw2] at hrec
          exact Option.noConfusion hrec
      subst hps
      rcases List.mem_singleton.1 hp with rfl
      exact beats_irrefl obs p
    | some q =>
      rw [hrec] at h
      cases hb : beats obs a q
      · simp [hb] at h
        subst h
        rcases List.mem_cons.1 hp with rfl | hp2
        · exact hb
        · exact ih hrec p hp2
      · simp [hb] at h
        subst h
        rcases List.mem_cons.1 hp with rfl | hp2
        · exact beats_irrefl obs p
        · exact beats_false_of obs hb (ih hrec p hp2)

theorem mem_plateCandidates_of (obs : List RawObservation) {o : RawObservation}
    (ho : o ∈ obs) (hne : o.plate_text ≠ "") :
    o.plate_text ∈ plateCandidates obs := by
  unfold plateCandidates
  rw [List.mem_dedup, List.mem_map]
  exact ⟨o, mem_validReadings.2 ⟨ho, hne⟩, rfl⟩

/-! ## Claim theorems -/

/-- C1: for every track finalized with at least one valid (non-empty)
plate reading, the finalized event's `vehicle_number` is a distinct
non-empty plate string of the track whose confidence sum is maximal, and
any candidate with an equal sum has a no-more-recent occurrence. -/
theorem finalize_weighted_vote_winner (obs : List RawObservation)
    (wl : List (String × String)) (h : ∃ o ∈ obs, o.plate_text ≠ "") :
    ∃ e, finalizeTrack obs wl = some e ∧
      e.vehicle_number ∈ plateCandidates obs ∧
      ∀ p ∈ plateCandidates obs,
        voteScore obs p < voteScore obs e.vehicle_number ∨
        (voteScore obs p = voteScore obs e.vehicle_number ∧
         lastIdx obs p ≤ lastIdx obs e.vehicle_number) := by
  obtain ⟨o, ho, hne⟩ := h
  have hmem := mem_plateCandidates_of obs ho hne
  obtain ⟨w, hw⟩ := pickBest_eq_some obs (List.ne_nil_of_mem hmem)
  have hfp : finalizePlate obs = some w := hw
  refine ⟨⟨w, (resolve wl w).1, (resolve wl w).2, false⟩, ?_, ?_, ?_⟩
  · simp [finalizeTrack, hfp]
  · exact pickBest_mem obs hw
  · intro p hp
    dsimp only
    have hopt := pickBest_optimal obs hw p hp
    simp only [beats, decide_eq_false_iff_not] at hopt
    omega

/-- C1 witness: the contract evaluated on a concrete one-reading track. -/
theorem finalize_weighted_vote_winner_witness :
    ∃ e, finalizeTrack demoObs [] = some e ∧
      e.vehicle_number ∈ plateCandidates demoObs ∧
      ∀ p ∈ plateCandidates demoObs,
        voteScore demoObs p < voteScore demoObs e.vehicle_number ∨
        (voteScore demoObs p = voteScore demoObs e.vehicle_number ∧
         lastIdx demoObs p ≤ lastIdx demoObs e.vehicle_number) :=
  finalize_weighted_vote_winner demoObs [] (by decide)

/-- C4: a track all of whose observations have empty OCR plate readings is
discarded at finalization — no event is emitted. -/
theorem empty_ocr_track_discarded (obs : List RawObservation)
    (wl : List (String × String)) (h : ∀ o ∈ obs, o.plate_text = "") :
    finalizeTrack obs wl = none := by
  have hval : validReadings obs = [] := by
    unfold validReadings
    rw [List.filter_eq_nil_iff]
    intro o ho
    simp [h o ho]
    exact (String.isEmpty_iff "").mpr rfl
  have hcand : plateCandidates obs = [] := by
    simp [plateCandidates, hval]
  simp [finalizeTrack, finalizePlate, hcand, pickBest]

/-- C4 witness: a concrete track of two failed readings emits nothing. -/
theorem empty_ocr_track_discarded_witness :
    finalizeTrack emptyObs [] = none :=
  empty_ocr_track_discarded emptyObs [] (by decide)

/-- C5: on the spec's worked example the vote sums are 90 and 90, the tie
is broken by the most recent occurrence (index 4 over index 3), and the
finalized plate is XY999. -/
theorem weighted_vote_tie_break_example :
    voteScore c5Obs "AB123" = 90 ∧ voteScore c5Obs "XY999" = 90 ∧
    lastIdx c5Obs "AB123" = 3 ∧ lastIdx c5Obs "XY999" = 4 ∧
    finalizePlate c5Obs = some "XY999" := by
  decide

/-- C2: `maybeAlert` is a no-op without any notification attempt for
authorized events; otherwise it makes exactly one attempt, returning true
exactly on success and false on every failure; the caller sets
`alert_sent` true exactly when the dispatch returned true, so for an event
starting with `alert_sent = false` the final flag is true iff the event is
unauthorized and the notification succeeded — never for an authorized
event. -/
theorem emit_vehicle_event_alert_contract (e : VehicleEvent)
    (o : NotifyOutcome) (h : e.alert_sent = false) :
    (e.is_authorized = true →
      maybeAlert e o = (false, 0) ∧
      (emit_vehicle_event e o).alert_sent = false) ∧
    (e.is_authorized = false →
      (maybeAlert e o).2 = 1 ∧
      ((maybeAlert e o).1 = true ↔ o = NotifyOutcome.success)) ∧
    (maybeAlert e o).2 ≤ 1 ∧
    ((emit_vehicle_event e o).alert_sent = true ↔
      e.is_authorized = false ∧ o = NotifyOutcome.success) := by
  rcases e with ⟨vn, auth, aas, als⟩
  cases auth <;> cases o <;>
    simp_all [maybeAlert, emit_vehicle_event, send_telegram]

/-- C2 witness: the contract evaluated on a concrete unauthorized event
with a successful dispatch. -/
theorem emit_vehicle_event_alert_contract_witness :
    (demoEvent.is_authorized = true →
      maybeAlert demoEvent NotifyOutcome.success = (false, 0) ∧
      (emit_vehicle_event demoEvent NotifyOutcome.success).alert_sent = false) ∧
    (demoEvent.is_authorized = false →
      (maybeAlert demoEvent NotifyOutcome.success).2 = 1 ∧
      ((maybeAlert demoEvent NotifyOutcome.success).1 = true ↔
        NotifyOutcome.success = NotifyOutcome.success)) ∧
    (maybeAlert demoEvent NotifyOutcome.success).2 ≤ 1 ∧
    ((emit_vehicle_event demoEvent NotifyOutcome.success).alert_sent = true ↔
      demoEvent.is_authorized = false ∧
      NotifyOutcome.success = NotifyOutcome.success) :=
  emit_vehicle_event_alert_contract demoEvent NotifyOutcome.success rfl

/-- C3: `resolve` performs the whitelist lookup on the normalized input
(uppercased, whitespace stripped), returning the entry role on a match and
Unauthorized otherwise; on the spec's example the noisy reading resolves
to Staff. -/
theorem resolve_normalized_contract (wl : List (String × String))
    (s : String) :
    (resolve wl s =
      match List.lookup (normalizePlate s) wl with
      | some role => (true, role)
      | none => (false, "Unauthorized")) ∧
    normalizePlate "ab12 cd3456" = "AB12CD3456" ∧
    resolve [("AB12CD3456", "Staff")] "ab12 cd3456" = (true, "Staff") ∧
    resolve [("AB12CD3456", "Staff")] "zz99" = (false, "Unauthorized") :=
  ⟨rfl, by decide, by decide, by decide⟩

/-- C7: deleting a nonexistent event id yields the NotFound error, and a
successful deletion never removes an event with a different id. -/
theorem deleteEvent_missing_id_contract (store : List PersistedEvent)
    (i : Nat) :
    ((∀ e ∈ store, e.id ≠ i) →
      deleteEvent store i = Except.error StoreError.notFound) ∧
    (∀ res, deleteEvent store i = Except.ok res →
      ∀ e ∈ store, e.id ≠ i → e ∈ res) := by
  constructor
  · intro h
    unfold deleteEvent
    rw [if_neg]
    intro hc
    rw [List.any_eq_true] at hc
    obtain ⟨e, he, heq⟩ := hc
    exact h e he (by simpa using heq)
  · intro res hres e he hne
    unfold deleteEvent at hres
    by_cases hc : store.any (fun e => e.id == i) = true
    · rw [if_pos hc] at hres
      simp only [Except.ok.injEq] at hres
      subst hres
      exact List.mem_filter.2 ⟨he, by simp [hne]⟩
    · rw [if_neg hc] at hres
      exact absurd hres (by simp)

/-- C7 witness: deleting id 3 from the two-event store (ids 1 and 2)
reports NotFound. -/
theorem deleteEvent_missing_id_contract_witness :
    deleteEvent demoStore 3 = Except.error StoreError.notFound :=
  (deleteEvent_missing_id_contract demoStore 3).1 (by decide)

/-- C6: `query` returns exactly the events matching the filters ordered
newest-first, and the dashboard serials `total - i` descend from the total
count on the newest row down to 1 on the oldest. -/
theorem query_newest_first_serials (store : List PersistedEvent)
    (f : QueryFilters) :
    (query store f).Pairwise newestFirst ∧
    (∀ e, e ∈ query store f ↔ e ∈ store ∧ matchesFilters f e = true) ∧
    (∀ n i : Nat, rowSerial n i = n - i) ∧
    (∀ n : Nat, (serialNumbers n).Pairwise (fun a b => b < a)) ∧
    (∀ m : Nat, (serialNumbers (m + 1)).head? = some (m + 1) ∧
      (serialNumbers (m + 1)).getLast? = some 1) := by
  refine ⟨?_, ?_, fun n i => rfl, ?_, ?_⟩
  · exact List.sorted_insertionSort newestFirst _
  · intro e
    rw [query, (List.perm_insertionSort newestFirst _).mem_iff, List.mem_filter]
  · intro n
    unfold serialNumbers
    rw [List.pairwise_map]
    refine (List.pairwise_lt_range n).imp_of_mem ?_
    intro a b ha hb hab
    have hbn := List.mem_range.1 hb
    simp only [rowSerial]
    omega
  · intro m
    constructor
    · rw [serialNumbers, List.range_succ_eq_map]
      simp [rowSerial]
    · rw [serialNumbers, List.range_succ, List.map_append]
      simp [rowSerial, List.getLast?_concat]

/-- C9: the Van Watch table holds exactly the events of the query with
`authorized` forced to true and `role` removed whose `authorized_as` is
exactly the string Van, and the van-mode authorization cell always renders
the literal Van. -/
theorem van_watch_table_contract (store : List PersistedEvent)
    (f : QueryFilters) :
    ((vansRequestFilters f).authorized = some true ∧
     (vansRequestFilters f).role = none ∧
     (vansRequestFilters f).vehicle = f.vehicle ∧
     (vansRequestFilters f).status = f.status ∧
     (vansRequestFilters f).vehicle_type = f.vehicle_type ∧
     (vansRequestFilters f).date_from = f.date_from ∧
     (vansRequestFilters f).date_to = f.date_to) ∧
    (∀ e, e ∈ vanWatchRows store f ↔
      e ∈ query store (vansRequestFilters f) ∧ e.authorized_as = "Van") ∧
    (∀ r : PersistedEvent, rowAuthCell true r = "Van") := by
  refine ⟨⟨rfl, rfl, rfl, rfl, rfl, rfl, rfl⟩, ?_, fun r => rfl⟩
  intro e
  rw [vanWatchRows, List.mem_filter]
  simp

/-- C10: `rowHtml` appends Z to a non-empty timestamp containing no Z, no
plus sign, and no minus sign at index 10 or later, so timezone-naive
timestamps are read as UTC; a timestamp with any of those markers is left
unchanged. -/
theorem rowHtml_timestamp_utc_fix (s : String) :
    ((s ≠ "" ∧ 'Z' ∉ s.toList ∧ '+' ∉ s.toList ∧ '-' ∉ s.toList.drop 10) →
      fixTimeStr s = s ++ "Z") ∧
    (('Z' ∈ s.toList ∨ '+' ∈ s.toList ∨ '-' ∈ s.toList.drop 10) →
      fixTimeStr s = s) ∧
    fixTimeStr "2024-01-15T14:30:45" = "2024-01-15T14:30:45Z" ∧
    fixTimeStr "2024-01-15T09:30:45-05:00" = "2024-01-15T09:30:45-05:00" ∧
    fixTimeStr "2024-01-15T14:30:45Z" = "2024-01-15T14:30:45Z" := by
  refine ⟨?_, ?_, by decide, by decide, by decide⟩
  · rintro ⟨h1, h2, h3, h4⟩
    have hcond : (!s.isEmpty && !jsIncludes s 'Z' && !jsIncludes s '+' &&
        !jsIncludesFrom s '-' 10) = true := by
      simp [jsIncludes, jsIncludesFrom, Bool.eq_false_iff, String.isEmpty_iff, h1]
      exact ⟨⟨h2, h3⟩, h4⟩
    unfold fixTimeStr
    rw [hcond]
    simp
  · intro h
    have hcond : (!s.isEmpty && !jsIncludes s 'Z' && !jsIncludes s '+' &&
        !jsIncludesFrom s '-' 10) = false := by
      simp [jsIncludes, jsIncludesFrom, Bool.eq_false_iff, String.isEmpty_iff]
      tauto
    unfold fixTimeStr
    rw [hcond]
    simp

/-- C10 witness: a concrete timezone-naive timestamp gains the Z suffix. -/
theorem rowHtml_timestamp_utc_fix_witness :
    fixTimeStr "2024-06-01T10:00:00" = "2024-06-01T10:00:00" ++ "Z" :=
  (rowHtml_timestamp_utc_fix "2024-06-01T10:00:00").1 (by decide)

theorem loadStep_inv {s : LoadState} (h : LoadInv s) (ev : LoadEvent) :
    LoadInv (loadStep s ev) := by
  rcases s with ⟨fl, q, a, st⟩
  unfold LoadInv at h
  cases ev
  case call =>
    unfold loadStep LoadInv
    cases fl <;> simp_all
  case finish =>
    unfold loadStep LoadInv
    cases fl <;> cases q <;> simp_all

theorem loadRun_inv {s : LoadState} (h : LoadInv s) (evs : List LoadEvent) :
    LoadInv (loadRun s evs) := by
  induction evs generalizing s with
  | nil => exact h
  | cons ev evs ih =>
    simp only [loadRun, List.foldl_cons]
    exact ih (loadStep_inv h ev)

theorem loadRun_calls_fix (k : Nat) :
    ∀ s : LoadState, s.loadInFlight = true → s.loadQueued = true →
      loadRun s (List.replicate k LoadEvent.call) = s := by
  induction k with
  | zero => intro s _ _; rfl
  | succ k ih =>
    intro s hf hq
    rw [List.replicate_succ]
    simp only [loadRun, List.foldl_cons]
    have hstep : loadStep s LoadEvent.call = s := by
      rcases s with ⟨fl, q, a, st⟩
      cases fl
      · cases hf
      · cases q
        · cases hq
        · rfl
    rw [hstep]
    exact ih s hf hq

theorem loadRun_calls (k : Nat) (hk : 0 < k) (s : LoadState)
    (hf : s.loadInFlight = true) :
    loadRun s (List.replicate k LoadEvent.call) =
      { s with loadQueued := true } := by
  obtain ⟨m, rfl⟩ : ∃ m, k = m + 1 := ⟨k - 1, by omega⟩
  rw [List.replicate_succ]
  simp only [loadRun, List.foldl_cons]
  have hstep : loadStep s LoadEvent.call = { s with loadQueued := true } := by
    unfold loadStep
    rw [if_pos hf]
  rw [hstep]
  exact loadRun_calls_fix m _ hf rfl

/-- C8: runs of the `loadAll` machinery from the initial state keep the
coalescing invariant, so at most one fetch sequence is ever in flight; and
any burst of calls arriving while a load is in flight starts no sequence
itself, only sets the queued flag, and the completion of the in-flight
load starts exactly one rerun. -/
theorem loadAll_coalescing (evs : List LoadEvent) (s : LoadState) (k : Nat)
    (hs : LoadInv s) (hf : s.loadInFlight = true) (hk : 0 < k) :
    (LoadInv (loadRun loadInit evs) ∧ (loadRun loadInit evs).active ≤ 1) ∧
    (loadRun s (List.replicate k LoadEvent.call)).started = s.started ∧
    (loadRun s (List.replicate k LoadEvent.call)).loadQueued = true ∧
    (loadStep (loadRun s (List.replicate k LoadEvent.call))
      LoadEvent.finish).started = s.started + 1 ∧
    (loadStep (loadRun s (List.replicate k LoadEvent.call))
      LoadEvent.finish).active = 1 := by
  have hinit : LoadInv loadInit := rfl
  have hglobal : LoadInv (loadRun loadInit evs) := loadRun_inv hinit evs
  have hcalls := loadRun_calls k hk s hf
  rcases s with ⟨fl, q, a, st⟩
  cases fl
  · cases hf
  · have ha : a = 1 := by simpa [LoadInv] using hs
    subst ha
    refine ⟨⟨hglobal, ?_⟩, ?_, ?_, ?_, ?_⟩
    · unfold LoadInv at hglobal
      rw [hglobal]
      cases (loadRun loadInit evs).loadInFlight <;> simp
    · rw [hcalls]
    · rw [hcalls]
    · rw [hcalls]
      rfl
    · rw [hcalls]
      rfl

/-- C8 witness: the contract evaluated on a concrete run and a burst of
two calls from an in-flight state. -/
theorem loadAll_coalescing_witness :
    (LoadInv (loadRun loadInit [LoadEvent.call, LoadEvent.call,
        LoadEvent.finish]) ∧
      (loadRun loadInit [LoadEvent.call, LoadEvent.call,
        LoadEvent.finish]).active ≤ 1) ∧
    (loadRun demoLoadState (List.replicate 2 LoadEvent.call)).started =
      demoLoadState.started ∧
    (loadRun demoLoadState (List.replicate 2 LoadEvent.call)).loadQueued =
      true ∧
    (loadStep (loadRun demoLoadState (List.replicate 2 LoadEvent.call))
      LoadEvent.finish).started = demoLoadState.started + 1 ∧
    (loadStep (loadRun demoLoadState (List.replicate 2 LoadEvent.call))
      LoadEvent.finish).active = 1 :=
  loadAll_coalescing [LoadEvent.call, LoadEvent.call, LoadEvent.finish]
    demoLoadState 2 (by decide) rfl (by decide)

end ANPR
